import Mathlib

/-
Verification of the inference-engine adapter of BERI-labs/Beri-Policy-Habs
(`src/beri/src/lib/llm.ts`, with the transparent relay in `llm.worker.ts`).

The TypeScript module is shallowly embedded as pure Lean functions:
the module-level mutable `engine` variable becomes an explicit `LLMState`
threaded through the operations, and the behaviour of the external WebLLM
runtime (progress reports during engine creation, the token-chunk stream
returned by `chat.completions.create`) is supplied as explicit parameters,
so that every control-flow path of the adapter is a case of a total
function on those parameters.
-/

namespace BeriLLM

/-- Modelled from the spec: the build-time model identifier constant
(`LLM_MODEL` in `constants.ts`, which is not among the provided sources).
The spec fixes it at build time but does not give its value; only its
identity across the two engine-creation call sites matters to the claims. -/
def LLM_MODEL : String := "policy-assistant-model"

/-- Modelled from the spec: the build-time maximum-output-tokens constant
(`MAX_TOKENS` in `constants.ts`, not among the provided sources). Its value
is irrelevant to the claims; it is only carried in the generation request. -/
def MAX_TOKENS : Nat := 512

/-- Modelled from the spec: the build-time sampling-temperature constant
(`TEMPERATURE` in `constants.ts`, not among the provided sources). Its value
is irrelevant to the claims; it is only carried in the generation request. -/
def TEMPERATURE : ℚ := 7 / 10

/-- Modelled from the spec: the build-time context-window-size constant
(`CONTEXT_WINDOW_SIZE` in `constants.ts`, not among the provided sources).
Only its identity across the two engine-creation call sites matters. -/
def CONTEXT_WINDOW_SIZE : Nat := 4096

/-- The opaque WebLLM engine (`webllm.MLCEngineInterface`), modelled by the
two pieces of its state the adapter interacts with: the internal
conversation state (cleared by `resetChat`) and whether model weights have
been loaded into it (an engine created by `new webllm.MLCEngine(...)` is
unloaded until `reload` completes). -/
structure Engine where
  chat : List String
  loaded : Bool
  deriving Repr, DecidableEq

/-- The engine's `resetChat()`: clears the internal conversation state and
nothing else. -/
def Engine.resetChat (e : Engine) : Engine :=
  { e with chat := [] }

/-- The module-level state of `llm.ts`: the single mutable variable
`let engine: webllm.MLCEngineInterface | null = null`. -/
structure LLMState where
  engine : Option Engine
  deriving Repr, DecidableEq

/-- The initial module state: `engine = null`. -/
def initialState : LLMState :=
  { engine := none }

/- ## Capability probe (`checkWebGPU`, llm.ts lines 16–27) -/

/-- Outcome of `navigator.gpu.requestAdapter()`: the promise either rejects
(the request throws) or resolves to an adapter or to `null`. The adapter
itself is opaque to the probe, so it is modelled as `Unit`. -/
inductive AdapterOutcome where
  | throws (msg : String)
  | resolves (adapter : Option Unit)
  deriving Repr, DecidableEq

/-- The host environment as seen by the probe: `navigator.gpu` is either
absent (`none`) or present with a given `requestAdapter` behaviour. -/
structure Navigator where
  gpu : Option AdapterOutcome
  deriving Repr, DecidableEq

/-- `checkWebGPU` (llm.ts 16–27): returns `false` when `navigator.gpu` is
absent; otherwise requests an adapter inside `try`, returning
`adapter !== null` on resolution and `false` when the request throws.
Totality of this function is the embedding of "never throws". -/
def checkWebGPU (nav : Navigator) : Bool :=
  match nav.gpu with
  | none => false
  | some (.throws _) => false
  | some (.resolves adapter) => adapter.isSome

/- ## Prompt assembly and generation (`generate`, llm.ts 89–135) -/

/-- The fixed directive opening the prompt template, together with the label
of the context section, exactly as in the template literal at llm.ts 101. -/
def promptHeader : String :=
  "You are BERI, a school policy assistant. Answer the question using ONLY the information below. Be accurate, concise, and precise; use bullet points. Always cite the source policy.\n\nPOLICY INFORMATION:\n"

/-- The label of the question section of the prompt template. -/
def promptQuestionLabel : String :=
  "\n\nQUESTION: "

/-- The terminal answer marker of the prompt template. -/
def promptAnswerMarker : String :=
  "\n\nANSWER:"

/-- The prompt template literal of llm.ts 101–109: the fixed directive, the
context interpolated verbatim, the question label, the query interpolated
verbatim, and the answer marker. -/
def buildPrompt (context query : String) : String :=
  promptHeader ++ context ++ promptQuestionLabel ++ query ++ promptAnswerMarker

/-- One streamed chunk: `chunk.choices[0]?.delta?.content` may be absent at
each optional step, so a chunk is a list of choices, each with an optional
delta carrying an optional content string. -/
structure Delta where
  content : Option String
  deriving Repr, DecidableEq

/-- A choice inside a streamed chunk. -/
structure Choice where
  delta : Option Delta
  deriving Repr, DecidableEq

/-- A streamed completion chunk. -/
structure Chunk where
  choices : List Choice
  deriving Repr, DecidableEq

/-- `chunk.choices[0]?.delta?.content || ''` (llm.ts 128): optional chaining
collapses every missing step to the empty string, and `|| ''` also sends an
empty content string to `''`. -/
def tokenOf (c : Chunk) : String :=
  (((c.choices.head?.bind Choice.delta).bind Delta.content).getD "")

/-- The request object passed to `engine.chat.completions.create`
(llm.ts 118–123): a single user message holding the prompt, with the fixed
generation options and streaming enabled. -/
structure ChatRequest where
  messages : List (String × String)
  max_tokens : Nat
  temperature : ℚ
  stream : Bool
  deriving Repr, DecidableEq

/-- Errors `generate` can propagate: the synchronous
`throw new Error('LLM not initialised')` guard (llm.ts 96), or an error
thrown by the token stream mid-iteration. -/
inductive LLMError where
  | engineNotReady
  | streamError (msg : String)
  deriving Repr, DecidableEq

/-- The `for await` loop body of llm.ts 127–133 over the chunks the stream
yields: each chunk's token is appended to the accumulator and forwarded to
`onToken` exactly when it is non-empty. Returns the final accumulator and
the list of fragments passed to `onToken`, in order. -/
def consumeChunks : List Chunk → String × List String
  | [] => ("", [])
  | c :: cs =>
    let t := tokenOf c
    let r := consumeChunks cs
    if t = "" then r else (t ++ r.1, t :: r.2)

deriving instance DecidableEq for Except

/-- Concatenation, in emission order, of a list of streamed fragments (the
notion the spec uses to relate the `onToken` fragments to the returned
`GenerationResult`). -/
def concatFragments : List String → String
  | [] => ""
  | t :: ts => t ++ concatFragments ts

/-- Everything observable about one `generate` call: the request submitted
to the engine (if the call got that far), the fragments passed to the
`onToken` callback in order, the returned string or propagated error, the
module engine state after the call, and whether `engine.resetChat()` was
performed on this path. -/
structure GenTrace where
  request : Option ChatRequest
  onTokenCalls : List String
  result : Except LLMError String
  finalEngine : Option Engine
  resetPerformed : Bool
  deriving Repr, DecidableEq

/-- `generate` (llm.ts 89–135). The stream behaviour is a parameter:
`chunks` are the chunks the stream yields in order, and `streamErr = some e`
means the stream throws `e` from the next `await` after yielding them
(`none` means it ends normally). Control flow follows the source: the
`!engine` guard throws before any other effect; otherwise the prompt is
built, the streaming request is submitted, the chunks are consumed by the
loop; on normal exhaustion `engine.resetChat()` runs and the accumulator is
returned, while a mid-stream throw propagates out of the `for await` loop —
there is no `try`/`finally` around it — so the reset line is never reached
on that path. The `systemPrompt` parameter mirrors `_systemPrompt`, which
the source never reads. -/
def generate (st : LLMState) (_systemPrompt context query : String)
    (chunks : List Chunk) (streamErr : Option String) : GenTrace :=
  match st.engine with
  | none =>
    { request := none
      onTokenCalls := []
      result := .error .engineNotReady
      finalEngine := none
      resetPerformed := false }
  | some eng =>
    let prompt := buildPrompt context query
    let req : ChatRequest :=
      { messages := [("user", prompt)]
        max_tokens := MAX_TOKENS
        temperature := TEMPERATURE
        stream := true }
    let (full, toks) := consumeChunks chunks
    match streamErr with
    | some e =>
      { request := some req
        onTokenCalls := toks
        result := .error (.streamError e)
        finalEngine := some eng
        resetPerformed := false }
    | none =>
      { request := some req
        onTokenCalls := toks
        result := .ok full
        finalEngine := some eng.resetChat
        resetPerformed := true }

/- ## Reset (`resetChat`, llm.ts 140–144) -/

/-- `resetChat` (llm.ts 140–144): a no-op when `engine` is `null`, otherwise
clears the engine's conversation state via `engine.resetChat()`. Totality
models that it never throws. -/
def resetChatOp (st : LLMState) : LLMState :=
  match st.engine with
  | none => st
  | some e => { st with engine := some e.resetChat }

/- ## Initialisation (`initLLM`, llm.ts 33–78) -/

/-- A raw progress report from the WebLLM runtime
(`webllm.InitProgressReport`): a fractional progress value and a status
text. -/
structure InitReport where
  progress : ℚ
  text : String
  deriving Repr, DecidableEq

/-- The `initProgressCallback` adapter (llm.ts 36–39): rescales the raw
fractional progress to an integer percent with `Math.round(progress * 100)`
and forwards the report's text. `Math.round` on non-negative values is
`round` (half away from zero equals half up there). -/
def adapt (r : InitReport) : Int × String :=
  (round (r.progress * 100), r.text)

/-- The behaviour of one engine-creation attempt, supplied by the
environment: the progress reports it delivers to the adapter, in order,
followed by either success or a thrown error. -/
inductive PathOutcome where
  | success (reports : List InitReport)
  | failure (reports : List InitReport) (err : String)
  deriving Repr, DecidableEq

/-- The environment of one `initLLM` call: the behaviour of the offloaded
creation (`new Worker` plus `webllm.CreateWebWorkerMLCEngine`, llm.ts
43–58) and of the fallback in-process load (`engine.reload`, llm.ts 70–72).
The fallback outcome is only consulted when the worker path fails. -/
structure InitEnv where
  workerOutcome : PathOutcome
  fallbackOutcome : PathOutcome
  deriving Repr, DecidableEq

/-- The arguments of one engine-creation call that the claims compare across
the two paths: the model identifier and the `context_window_size` option.
Both paths also install the same `initProgressCallback` closure; in this
model that is witnessed by both paths' reports entering the trace through
the single function `adapt`. -/
structure CreationCall where
  modelId : String
  contextWindowSize : Nat
  deriving Repr, DecidableEq

/-- Everything observable about one `initLLM` call: the `(percent, message)`
events delivered to the progress sink in order, the arguments of the worker
creation attempt, the arguments of the fallback attempt when it ran, and
the call's outcome. -/
structure InitTrace where
  progressEvents : List (Int × String)
  workerCall : CreationCall
  fallbackCall : Option CreationCall
  result : Except String Unit
  deriving Repr, DecidableEq

/-- An engine handle freshly produced by a successful creation or load:
empty conversation state, weights loaded. -/
def loadedEngine : Engine :=
  { chat := [], loaded := true }

/-- The engine produced by `new webllm.MLCEngine(...)` before `reload` has
completed: empty conversation state, weights not loaded. -/
def unloadedEngine : Engine :=
  { chat := [], loaded := false }

/-- `initLLM` (llm.ts 33–78), returning the trace and the new module state.
Control flow follows the source: first `onProgress?.(0, 'Initialising
language model...')`; then the `try` block attempts the worker engine,
whose reports reach the sink through `adapt`, and on success assigns
`engine`; the `catch` block builds an in-process `MLCEngine` with the same
`initProgressCallback`, assigns it to `engine` immediately, and only then
awaits `engine.reload(LLM_MODEL, { context_window_size })` — so when the
reload throws, the error propagates out of `initLLM` (there is no second
`catch`) with the module `engine` variable left pointing at the unloaded
in-process engine. The final `onProgress?.(100, 'Language model ready')` is
reached only when either path succeeded. -/
def initLLM (st : LLMState) (env : InitEnv) : InitTrace × LLMState :=
  let ev0 : Int × String := (0, "Initialising language model...")
  let readyEv : Int × String := (100, "Language model ready")
  let call : CreationCall :=
    { modelId := LLM_MODEL, contextWindowSize := CONTEXT_WINDOW_SIZE }
  match env.workerOutcome with
  | .success wreports =>
    ({ progressEvents := ev0 :: (wreports.map adapt ++ [readyEv])
       workerCall := call
       fallbackCall := none
       result := .ok () },
     { st with engine := some loadedEngine })
  | .failure wreports _werr =>
    match env.fallbackOutcome with
    | .success freports =>
      ({ progressEvents := ev0 :: ((wreports ++ freports).map adapt ++ [readyEv])
         workerCall := call
         fallbackCall := some call
         result := .ok () },
       { st with engine := some loadedEngine })
    | .failure freports ferr =>
      ({ progressEvents := ev0 :: (wreports ++ freports).map adapt
         workerCall := call
         fallbackCall := some call
         result := .error ferr },
       { st with engine := some unloadedEngine })

/-- The raw reports the runtime delivered during one `initLLM` call, in
chronological order across both paths. -/
def allReports (env : InitEnv) : List InitReport :=
  match env.workerOutcome with
  | .success wreports => wreports
  | .failure wreports _ =>
    match env.fallbackOutcome with
    | .success freports => wreports ++ freports
    | .failure freports _ => wreports ++ freports

/- ## Helper lemmas about the consumption loop -/

/-- The accumulator built by the consumption loop is the in-order
concatenation of the fragments it forwards to `onToken`. -/
theorem consumeChunks_fst (chunks : List Chunk) :
    (consumeChunks chunks).1 = concatFragments (consumeChunks chunks).2 := by
  induction chunks with
  | nil => rfl
  | cons c cs ih =>
    by_cases h : tokenOf c = "" <;> simp [consumeChunks, h, ih, concatFragments]

/-- The fragments forwarded to `onToken` are exactly the non-empty tokens of
the stream's chunks, in order. -/
theorem consumeChunks_snd (chunks : List Chunk) :
    (consumeChunks chunks).2 = (chunks.map tokenOf).filter (fun t => t ≠ "") := by
  induction chunks with
  | nil => rfl
  | cons c cs ih =>
    by_cases h : tokenOf c = "" <;> simp [consumeChunks, h, ih]

/- ## Helper lemmas about the progress adapter -/

/-- The percent rescaling of the progress adapter is monotone. -/
theorem adapt_fst_mono {a b : InitReport} (h : a.progress ≤ b.progress) :
    (adapt a).1 ≤ (adapt b).1 := by
  simp only [adapt]
  rw [round_eq, round_eq]
  exact Int.floor_le_floor (by nlinarith)

/-- A report with non-negative raw progress is adapted to a non-negative
percent. -/
theorem adapt_fst_nonneg {r : InitReport} (h0 : 0 ≤ r.progress) :
    0 ≤ (adapt r).1 := by
  have h : round (0 : ℚ) ≤ round (r.progress * 100) := by
    rw [round_eq, round_eq]
    exact Int.floor_le_floor (by nlinarith)
  simpa [adapt] using h

/-- A report with raw progress at most one is adapted to a percent at most
one hundred. -/
theorem adapt_fst_le_hundred {r : InitReport} (h1 : r.progress ≤ 1) :
    (adapt r).1 ≤ 100 := by
  have h : round (r.progress * 100) ≤ round ((100 : ℚ)) := by
    rw [round_eq, round_eq]
    exact Int.floor_le_floor (by nlinarith)
  simpa [adapt] using h

/- ## Helper lemmas about monotone percent sequences -/

/-- Appending a terminal `100` to a non-decreasing percent list bounded by
`100` keeps it non-decreasing. -/
theorem chain'_le_concat_hundred (l : List Int) :
    ∀ c : Int, (c :: l).Chain' (· ≤ ·) → (∀ x ∈ c :: l, x ≤ 100) →
      ((c :: l) ++ [100]).Chain' (· ≤ ·) := by
  induction l with
  | nil =>
    intro c _ h
    exact List.chain'_cons.2 ⟨h c (List.mem_cons_self c []), List.chain'_singleton _⟩
  | cons b l ih =>
    intro c hch h
    rw [List.cons_append]
    refine List.chain'_cons.2 ⟨(List.chain'_cons.1 hch).1, ?_⟩
    exact ih b (List.chain'_cons.1 hch).2 fun x hx => h x (List.mem_cons_of_mem c hx)

/-- A non-decreasing percent list with entries in `[0, 100]`, prefixed by
`0` and suffixed by `100`, is non-decreasing. -/
theorem chain'_zero_concat (l : List Int) (hl : l.Chain' (· ≤ ·))
    (h0 : ∀ x ∈ l, 0 ≤ x) (h100 : ∀ x ∈ l, x ≤ 100) :
    ((0 : Int) :: (l ++ [100])).Chain' (· ≤ ·) := by
  have hc : ((0 : Int) :: l).Chain' (· ≤ ·) :=
    List.chain'_cons'.2 ⟨fun y hy => h0 y (List.mem_of_mem_head? hy), hl⟩
  have h2 : ∀ x ∈ (0 : Int) :: l, x ≤ 100 := by
    intro x hx
    rcases List.mem_cons.1 hx with rfl | hx
    · norm_num
    · exact h100 x hx
  simpa using chain'_le_concat_hundred l 0 hc h2

/-- On every successful `initLLM` run the delivered events are the initial
zero event, the adapted runtime reports in order, and the terminal ready
event. -/
theorem initLLM_progress_shape (st : LLMState) (env : InitEnv)
    (hok : (initLLM st env).1.result = .ok ()) :
    (initLLM st env).1.progressEvents =
      (0, "Initialising language model...") ::
        ((allReports env).map adapt ++ [(100, "Language model ready")]) := by
  obtain ⟨w, f⟩ := env
  cases w with
  | success wr => simp [initLLM, allReports]
  | failure wr werr =>
    cases f with
    | success fr => simp [initLLM, allReports]
    | failure fr ferr => simp [initLLM] at hok

/- ## Claim theorems -/

/-- Claim C1 (code defect): the spec requires the conversational-state reset
on every exit path of `generate`, but the source wraps the stream
consumption (llm.ts 127–133) in no `try`/`finally`, so a stream that throws
mid-iteration propagates its error past the reset line (llm.ts 137): at a
ready engine holding prior conversation state, a stream yielding one chunk
and then throwing leaves `resetPerformed = false` and the engine state
untouched while the error propagates. -/
theorem generate_stream_failure_skips_reset :
    generate { engine := some { chat := ["prior turn"], loaded := true } }
        "sys" "ctx" "q"
        [{ choices := [{ delta := some { content := some "Hello" } }] }]
        (some "network error") =
      { request := some
          { messages := [("user", buildPrompt "ctx" "q")]
            max_tokens := MAX_TOKENS
            temperature := TEMPERATURE
            stream := true }
        onTokenCalls := ["Hello"]
        result := .error (.streamError "network error")
        finalEngine := some { chat := ["prior turn"], loaded := true }
        resetPerformed := false } := by
  simp [generate, consumeChunks, tokenOf]

/-- Claim C2: on a `generate` call that completes normally, the returned
string is the in-order concatenation of exactly the fragments passed to
`onToken`, no forwarded fragment is empty, and the forwarded fragments are
exactly the non-empty tokens of the stream in emission order (none omitted
or duplicated). -/
theorem generate_result_concats_onToken (st : LLMState) (eng : Engine)
    (sp c q : String) (chunks : List Chunk) (h : st.engine = some eng) :
    (generate st sp c q chunks none).result =
      .ok (concatFragments (generate st sp c q chunks none).onTokenCalls) ∧
    (∀ t ∈ (generate st sp c q chunks none).onTokenCalls, t ≠ "") ∧
    (generate st sp c q chunks none).onTokenCalls =
      (chunks.map tokenOf).filter (fun t => t ≠ "") := by
  refine ⟨?_, ?_, ?_⟩
  · simp [generate, h, consumeChunks_fst]
  · intro t ht
    simp only [generate, h] at ht
    rw [consumeChunks_snd] at ht
    simp only [List.mem_filter, decide_eq_true_eq] at ht
    exact ht.2
  · simp [generate, h, consumeChunks_snd]

/-- Witness for C2 at the spec's end-to-end example: two non-empty chunks
are forwarded in order and concatenated into the result. -/
theorem generate_result_concats_onToken_witness :
    (generate { engine := some loadedEngine } "sys" "Policy: lunch starts at 12:00."
        "When does lunch start?"
        [{ choices := [{ delta := some { content := some "Lunch " } }] },
         { choices := [{ delta := some { content := some "starts at 12:00." } }] }]
        none).result =
      .ok (concatFragments (generate { engine := some loadedEngine } "sys"
        "Policy: lunch starts at 12:00." "When does lunch start?"
        [{ choices := [{ delta := some { content := some "Lunch " } }] },
         { choices := [{ delta := some { content := some "starts at 12:00." } }] }]
        none).onTokenCalls) ∧
    (∀ t ∈ (generate { engine := some loadedEngine } "sys"
        "Policy: lunch starts at 12:00." "When does lunch start?"
        [{ choices := [{ delta := some { content := some "Lunch " } }] },
         { choices := [{ delta := some { content := some "starts at 12:00." } }] }]
        none).onTokenCalls, t ≠ "") ∧
    (generate { engine := some loadedEngine } "sys"
        "Policy: lunch starts at 12:00." "When does lunch start?"
        [{ choices := [{ delta := some { content := some "Lunch " } }] },
         { choices := [{ delta := some { content := some "starts at 12:00." } }] }]
        none).onTokenCalls =
      ([{ choices := [{ delta := some { content := some "Lunch " } }] },
         { choices := [{ delta := some { content := some "starts at 12:00." } }] }].map
           tokenOf).filter (fun t => t ≠ "") :=
  generate_result_concats_onToken _ loadedEngine _ _ _ _ rfl

/-- Claim C3: with a ready engine, `generate` submits a single user message
whose content is the fixed directive, the verbatim context under its label,
the verbatim query under its label, and the answer marker, with the fixed
generation options and streaming enabled; the assembly is a pure function
of the two inputs. -/
theorem generate_submits_structured_prompt (st : LLMState) (eng : Engine)
    (sp c q : String) (chunks : List Chunk) (serr : Option String)
    (h : st.engine = some eng) :
    (generate st sp c q chunks serr).request = some
      { messages := [("user",
          promptHeader ++ c ++ promptQuestionLabel ++ q ++ promptAnswerMarker)]
        max_tokens := MAX_TOKENS
        temperature := TEMPERATURE
        stream := true } := by
  cases serr <;> simp [generate, h, buildPrompt]

/-- Witness for C3 at the spec's end-to-end example inputs. -/
theorem generate_submits_structured_prompt_witness :
    (generate { engine := some loadedEngine } "sys" "Policy: lunch starts at 12:00."
        "When does lunch start?" [] none).request = some
      { messages := [("user",
          promptHeader ++ "Policy: lunch starts at 12:00." ++ promptQuestionLabel ++
            "When does lunch start?" ++ promptAnswerMarker)]
        max_tokens := MAX_TOKENS
        temperature := TEMPERATURE
        stream := true } :=
  generate_submits_structured_prompt _ loadedEngine _ _ _ _ _ rfl

/-- Claim C4: calling `generate` with no engine handle fails with the
not-ready error before any other effect: no request is submitted, no
`onToken` call happens, and the (absent) engine state is untouched. -/
theorem generate_not_ready_no_side_effects (st : LLMState)
    (sp c q : String) (chunks : List Chunk) (serr : Option String)
    (h : st.engine = none) :
    generate st sp c q chunks serr =
      { request := none
        onTokenCalls := []
        result := .error .engineNotReady
        finalEngine := none
        resetPerformed := false } := by
  simp [generate, h]

/-- Witness for C4: `generate` on the initial module state. -/
theorem generate_not_ready_no_side_effects_witness :
    generate initialState "sys" "ctx" "q" [] none =
      { request := none
        onTokenCalls := []
        result := .error .engineNotReady
        finalEngine := none
        resetPerformed := false } :=
  generate_not_ready_no_side_effects initialState "sys" "ctx" "q" [] none rfl

/-- Claim C5 (counterexample): in a successful `initLLM` run where the
worker path reports raw progress 1 and then fails and the fallback path
reports raw progress 0 and succeeds, the delivered percents are
0, 100, 0, 100 — not non-decreasing — and the terminal event's message is
"Language model ready", not "ready". -/
theorem init_progress_claim_counterexample :
    (initLLM initialState
        { workerOutcome := .failure [{ progress := 1, text := "loading" }] "worker failed"
          fallbackOutcome := .success [{ progress := 0, text := "reloading" }] }).1.result =
      .ok () ∧
    (initLLM initialState
        { workerOutcome := .failure [{ progress := 1, text := "loading" }] "worker failed"
          fallbackOutcome := .success [{ progress := 0, text := "reloading" }] }).1.progressEvents =
      [(0, "Initialising language model..."), (100, "loading"),
       (0, "reloading"), (100, "Language model ready")] ∧
    ¬ ((initLLM initialState
        { workerOutcome := .failure [{ progress := 1, text := "loading" }] "worker failed"
          fallbackOutcome := .success [{ progress := 0, text := "reloading" }] }).1.progressEvents.map
          Prod.fst).Chain' (· ≤ ·) ∧
    ¬ (initLLM initialState
        { workerOutcome := .failure [{ progress := 1, text := "loading" }] "worker failed"
          fallbackOutcome := .success [{ progress := 0, text := "reloading" }] }).1.progressEvents.getLast? =
      some (100, "ready") := by
  have hev : (initLLM initialState
      { workerOutcome := .failure [{ progress := 1, text := "loading" }] "worker failed"
        fallbackOutcome := .success [{ progress := 0, text := "reloading" }] }).1.progressEvents =
      [(0, "Initialising language model..."), (100, "loading"),
       (0, "reloading"), (100, "Language model ready")] := by
    simp [initLLM, adapt]
  refine ⟨rfl, hev, ?_, ?_⟩
  · rw [hev]; norm_num [List.chain'_cons]
  · rw [hev]; decide

/-- Claim C5 (amended): for every `initLLM` call that succeeds and whose raw
runtime reports, in chronological order across both creation paths, are
non-decreasing with progress in `[0, 1]` (the adapter preserves but cannot
create this order: after a worker failure the fallback restarts reporting
from zero), the delivered events are non-decreasing in percent, begin with
percent `0`, and end with exactly `(100, "Language model ready")`. -/
theorem init_progress_monotone (st : LLMState) (env : InitEnv)
    (hok : (initLLM st env).1.result = .ok ())
    (hmono : (allReports env).Chain' (fun a b => a.progress ≤ b.progress))
    (hrange : ∀ r ∈ allReports env, 0 ≤ r.progress ∧ r.progress ≤ 1) :
    ((initLLM st env).1.progressEvents.map Prod.fst).Chain' (· ≤ ·) ∧
    (initLLM st env).1.progressEvents.head? =
      some (0, "Initialising language model...") ∧
    (initLLM st env).1.progressEvents.getLast? =
      some (100, "Language model ready") := by
  have hev := initLLM_progress_shape st env hok
  rw [hev]
  refine ⟨?_, rfl, ?_⟩
  · have hmap : (((0 : Int), "Initialising language model...") ::
        ((allReports env).map adapt ++ [((100 : Int), "Language model ready")])).map Prod.fst =
        (0 : Int) :: ((allReports env).map (fun r => (adapt r).1) ++ [100]) := by
      simp [List.map_map, Function.comp_def]
    rw [hmap]
    apply chain'_zero_concat
    · exact (List.chain'_map _).2 (hmono.imp fun a b hab => adapt_fst_mono hab)
    · intro x hx
      obtain ⟨r, hr, rfl⟩ := List.mem_map.1 hx
      exact adapt_fst_nonneg (hrange r hr).1
    · intro x hx
      obtain ⟨r, hr, rfl⟩ := List.mem_map.1 hx
      exact adapt_fst_le_hundred (hrange r hr).2
  · rw [← List.cons_append]
    exact List.getLast?_concat _

/-- Witness for the amended C5 at a concrete worker-path success with two
in-range, non-decreasing reports. -/
theorem init_progress_monotone_witness :
    ((initLLM initialState
        { workerOutcome := .success [{ progress := 0, text := "fetching" },
                                     { progress := 1, text := "done" }]
          fallbackOutcome := .success [] }).1.progressEvents.map Prod.fst).Chain' (· ≤ ·) ∧
    (initLLM initialState
        { workerOutcome := .success [{ progress := 0, text := "fetching" },
                                     { progress := 1, text := "done" }]
          fallbackOutcome := .success [] }).1.progressEvents.head? =
      some (0, "Initialising language model...") ∧
    (initLLM initialState
        { workerOutcome := .success [{ progress := 0, text := "fetching" },
                                     { progress := 1, text := "done" }]
          fallbackOutcome := .success [] }).1.progressEvents.getLast? =
      some (100, "Language model ready") :=
  init_progress_monotone initialState _ rfl
    (by simp [allReports])
    (by simp [allReports])

/-- Claim C6: when offloaded creation fails and the fallback succeeds, the
fallback uses the same model identifier and the same context-window option
as the worker attempt, both paths' reports reach the sink through the same
`adapt` rescaler, and the call still succeeds, the module engine is set,
and the final delivered event has percent 100. -/
theorem init_fallback_same_call (st : LLMState) (wr fr : List InitReport) (werr : String) :
    (initLLM st ⟨.failure wr werr, .success fr⟩).1.workerCall =
      { modelId := LLM_MODEL, contextWindowSize := CONTEXT_WINDOW_SIZE } ∧
    (initLLM st ⟨.failure wr werr, .success fr⟩).1.fallbackCall =
      some { modelId := LLM_MODEL, contextWindowSize := CONTEXT_WINDOW_SIZE } ∧
    (initLLM st ⟨.failure wr werr, .success fr⟩).1.result = .ok () ∧
    (initLLM st ⟨.failure wr werr, .success fr⟩).1.progressEvents =
      (0, "Initialising language model...") ::
        ((wr ++ fr).map adapt ++ [(100, "Language model ready")]) ∧
    (initLLM st ⟨.failure wr werr, .success fr⟩).1.progressEvents.getLast? =
      some (100, "Language model ready") ∧
    (initLLM st ⟨.failure wr werr, .success fr⟩).2.engine = some loadedEngine := by
  refine ⟨rfl, rfl, rfl, rfl, ?_, rfl⟩
  show ((0, "Initialising language model...") ::
      ((wr ++ fr).map adapt ++ [(100, "Language model ready")])).getLast? = _
  rw [← List.cons_append]
  exact List.getLast?_concat _

/-- Claim C7: `resetChat` is total in every state (the embedding of "never
throws"): with no engine it is the identity, with an engine it clears
exactly the conversation state, and it is idempotent. -/
theorem resetChat_total_idempotent (st : LLMState) :
    resetChatOp initialState = initialState ∧
    (resetChatOp st).engine = st.engine.map Engine.resetChat ∧
    resetChatOp (resetChatOp st) = resetChatOp st := by
  obtain ⟨o⟩ := st
  cases o <;> simp [resetChatOp, initialState, Engine.resetChat]

/-- Claim C8: the capability probe is a total function (never throws) that
returns `false` when the host exposes no GPU interface, when the adapter
request throws, and when it resolves to `null`, and returns `true` exactly
when an adapter is obtained. -/
theorem checkWebGPU_cases (nav : Navigator) :
    checkWebGPU { gpu := none } = false ∧
    (∀ m, checkWebGPU { gpu := some (.throws m) } = false) ∧
    checkWebGPU { gpu := some (.resolves none) } = false ∧
    (checkWebGPU nav = true ↔ nav.gpu = some (.resolves (some ()))) := by
  obtain ⟨g⟩ := nav
  refine ⟨rfl, fun m => rfl, rfl, ?_⟩
  cases g with
  | none => simp [checkWebGPU]
  | some o =>
    cases o with
    | throws m => simp [checkWebGPU]
    | resolves a =>
      cases a with
      | none => simp [checkWebGPU]
      | some u => cases u; simp [checkWebGPU]

/-- Claim C9: when both the worker path and the fallback reload fail,
`initLLM` propagates the reload error but leaves the module engine variable
pointing at the fresh unloaded in-process engine rather than restoring its
pre-call value, so a subsequent `generate` does not fail with the not-ready
error. -/
theorem init_double_failure_stale_handle (st : LLMState)
    (wr fr : List InitReport) (werr ferr : String) :
    (initLLM st ⟨.failure wr werr, .failure fr ferr⟩).1.result = .error ferr ∧
    (initLLM st ⟨.failure wr werr, .failure fr ferr⟩).2.engine = some unloadedEngine ∧
    ∀ sp c q chunks serr,
      (generate (initLLM st ⟨.failure wr werr, .failure fr ferr⟩).2
          sp c q chunks serr).result ≠ Except.error LLMError.engineNotReady := by
  refine ⟨rfl, rfl, ?_⟩
  intro sp c q chunks serr
  cases serr <;> simp [generate, initLLM]

/-- Claim C10: the `_systemPrompt` argument of `generate` is dead — two
calls differing only in it produce identical traces (same submitted
request, same `onToken` fragments, same result, same final state). -/
theorem generate_ignores_systemPrompt (st : LLMState) (sp1 sp2 context query : String)
    (chunks : List Chunk) (serr : Option String) :
    generate st sp1 context query chunks serr =
      generate st sp2 context query chunks serr := rfl

end BeriLLM
